import Mathlib

/-!
Shallow embedding of `src/server.js` (an Express server exposing six
GitHub-backed "tools" over HTTP) together with theorems checking the
natural-language specification against it.

Modelling conventions:
* A JSON value is the inductive `Mcp.Json`; a JS object literal becomes
  `Json.obj` with its fields in source order.
* Each tool adapter of `toolImplementations` becomes a Lean function that
  takes the upstream client's behaviour as a stub (a function from the call
  arguments the adapter builds to the upstream outcome) and returns the
  adapter's JSON result paired with the list of upstream calls it issued.
  An upstream failure is an `ApiError` (the thrown error's `status` and
  `message`); the adapter bodies are wrapped in try/catch in the source and
  hence are total functions here.
* `Buffer.from(s, 'base64').toString('utf-8')` is modelled by an explicit
  base64 bit-accumulator decoder followed by a UTF-8 decoder with U+FFFD
  replacement on malformed sequences.
* The `POST /tools/:toolName` route becomes `dispatch`, parametrised by
  whether the octokit client was constructed and by the behaviour of the
  looked-up implementation (returned value or thrown exception message).
-/

namespace Mcp

/-- A JSON value, as produced by the server's handlers. -/
inductive Json where
  | null
  | str (s : String)
  | num (n : Int)
  | jbool (b : Bool)
  | arr (elems : List Json)
  | obj (fields : List (String × Json))

/-- Look up a field of a JSON object (first occurrence), `none` otherwise. -/
def jsonField (j : Json) (key : String) : Option Json :=
  match j with
  | .obj fields => (fields.find? (fun p => p.1 = key)).map (·.2)
  | _ => none

/-- A thrown upstream (GitHub API) error: its `status` property (absent on
non-HTTP failures) and its `message`. -/
structure ApiError where
  status : Option Nat
  message : String
deriving DecidableEq

/-- `handleGitHubError` from `src/server.js`: maps an upstream error to the
fixed error body by its status (404, 403, otherwise). -/
def handleGitHubError (error : ApiError) : Json :=
  if error.status = some 404 then
    Json.obj [("error", Json.str "Resource not found")]
  else if error.status = some 403 then
    Json.obj [("error", Json.str "Rate limit exceeded or insufficient permissions")]
  else
    Json.obj [("error", Json.str ("GitHub API error: " ++ error.message))]

/-- JS `x || d` for an optional string argument: `undefined` and the empty
string (the falsy string) fall back to the default. -/
def jsOrStr (v : Option String) (d : String) : String :=
  match v with
  | none => d
  | some s => if s = "" then d else s

/-- JS `x || d` for an optional numeric argument: `undefined` and `0` (the
falsy number) fall back to the default. -/
def jsOrNat (v : Option Nat) (d : Nat) : Nat :=
  match v with
  | none => d
  | some n => if n = 0 then d else n

/-! ### Model of `Buffer.from(s, 'base64').toString('utf-8')` -/

/-- Value of a base64 alphabet character, `none` for characters outside the
alphabet (padding and noise are skipped by the decoder). -/
def base64Val (c : Char) : Option Nat :=
  if 'A' ≤ c ∧ c ≤ 'Z' then some (c.toNat - 65)
  else if 'a' ≤ c ∧ c ≤ 'z' then some (c.toNat - 97 + 26)
  else if '0' ≤ c ∧ c ≤ '9' then some (c.toNat - 48 + 52)
  else if c = '+' then some 62
  else if c = '/' then some 63
  else none

/-- Base64 bit accumulator: six bits per alphabet character, a byte is
emitted whenever eight bits are available. -/
def base64DecodeAux : List Char → Nat → Nat → List Nat
  | [], _, _ => []
  | c :: cs, acc, nbits =>
    match base64Val c with
    | none => base64DecodeAux cs acc nbits
    | some v =>
      let acc2 := acc * 64 + v
      let n2 := nbits + 6
      if 8 ≤ n2 then
        (acc2 / 2 ^ (n2 - 8)) % 256 :: base64DecodeAux cs (acc2 % 2 ^ (n2 - 8)) (n2 - 8)
      else
        base64DecodeAux cs acc2 n2

/-- Decode a base64 string to its byte sequence. -/
def base64Decode (s : String) : List Nat :=
  base64DecodeAux s.data 0 0

/-- The Unicode replacement character emitted for malformed UTF-8. -/
def replacementChar : Char := '�'

/-- Whether a byte is a UTF-8 continuation byte (10xxxxxx). -/
def isCont (b : Nat) : Bool := decide (0x80 ≤ b) && decide (b < 0xC0)

/-- Fuelled UTF-8 decoder over a byte list; each step consumes at least one
byte, so fuel equal to the list length decodes everything. Malformed
sequences (bad lead bytes, truncated sequences, overlong forms, surrogate
code points, values beyond U+10FFFF) produce the replacement character. -/
def utf8DecodeFuel : Nat → List Nat → List Char
  | 0, _ => []
  | _ + 1, [] => []
  | fuel + 1, b :: bs =>
    if b < 0x80 then
      Char.ofNat b :: utf8DecodeFuel fuel bs
    else if b < 0xC2 then
      replacementChar :: utf8DecodeFuel fuel bs
    else if b < 0xE0 then
      match bs with
      | b1 :: rest =>
        if isCont b1 then
          Char.ofNat ((b - 0xC0) * 64 + (b1 - 0x80)) :: utf8DecodeFuel fuel rest
        else
          replacementChar :: utf8DecodeFuel fuel bs
      | [] => [replacementChar]
    else if b < 0xF0 then
      match bs with
      | b1 :: b2 :: rest =>
        if isCont b1 && isCont b2 then
          let cp := (b - 0xE0) * 4096 + (b1 - 0x80) * 64 + (b2 - 0x80)
          (if cp < 0x800 ∨ (0xD800 ≤ cp ∧ cp ≤ 0xDFFF) then replacementChar
           else Char.ofNat cp) :: utf8DecodeFuel fuel rest
        else
          replacementChar :: utf8DecodeFuel fuel bs
      | _ => [replacementChar]
    else if b < 0xF5 then
      match bs with
      | b1 :: b2 :: b3 :: rest =>
        if isCont b1 && isCont b2 && isCont b3 then
          let cp := (b - 0xF0) * 262144 + (b1 - 0x80) * 4096 + (b2 - 0x80) * 64 + (b3 - 0x80)
          (if cp < 0x10000 ∨ 0x10FFFF < cp then replacementChar
           else Char.ofNat cp) :: utf8DecodeFuel fuel rest
        else
          replacementChar :: utf8DecodeFuel fuel bs
      | _ => [replacementChar]
    else
      replacementChar :: utf8DecodeFuel fuel bs

/-- Decode a byte sequence as UTF-8 text. -/
def utf8Decode (bytes : List Nat) : String :=
  String.mk (utf8DecodeFuel bytes.length bytes)

/-- Model of `Buffer.from(s, 'base64').toString('utf-8')` used by
`get_file_contents`. -/
def bufferBase64ToUtf8 (s : String) : String :=
  utf8Decode (base64Decode s)


/-! ### Upstream data shapes (the fields each adapter reads) -/

/-- The fields of `octokit.rest.repos.get`'s response that
`get_repository_info` reads. -/
structure RepoData where
  name : String
  full_name : String
  description : String
  language : String
  stargazers_count : Int
  forks_count : Int
  open_issues_count : Int
  created_at : String
  updated_at : String
  clone_url : String
  default_branch : String

/-- A label object of an upstream issue (`list_issues` reads `name`). -/
structure IssueLabel where
  name : String

/-- An assignee object of an upstream issue (`list_issues` reads `login`). -/
structure IssueAssignee where
  login : String

/-- The author object of an upstream issue (`list_issues` reads `login`). -/
structure IssueUser where
  login : String

/-- The fields of an upstream issue that `list_issues` reads. -/
structure IssueData where
  number : Int
  title : String
  body : String
  state : String
  user : IssueUser
  created_at : String
  updated_at : String
  labels : List IssueLabel
  assignees : List IssueAssignee

/-- The fields of `octokit.rest.repos.getContent`'s response that
`get_file_contents` reads. `type` distinguishes files from directories,
`content` holds the base64-encoded file body. -/
structure ContentData where
  type : String
  name : String
  path : String
  size : Int
  content : String
  sha : String

/-- The fields of a code-search result item that `search_files` and
`search_code` read; `text_matches` is absent (`none`) unless the upstream
returned snippets. -/
structure SearchItem where
  name : String
  path : String
  sha : String
  html_url : String
  score : Int
  text_matches : Option (List Json)

/-- The fields of `octokit.rest.search.code`'s response that the two search
adapters read. -/
structure SearchData where
  total_count : Int
  items : List SearchItem

/-- A name/email/date triple of a commit's author or committer. -/
structure GitActor where
  name : String
  email : String
  date : String

/-- The nested `commit` object of an upstream commit entry. -/
structure CommitDetail where
  message : String
  author : GitActor
  committer : GitActor

/-- The fields of an upstream commit entry that `get_commits` reads. -/
structure CommitData where
  sha : String
  commit : CommitDetail
  html_url : String

/-! ### Upstream call shapes (the argument objects each adapter builds) -/

/-- Arguments of the `octokit.rest.repos.get` call. -/
structure RepoGetCall where
  owner : String
  repo : String
deriving DecidableEq

/-- Arguments of the `octokit.rest.issues.listForRepo` call. -/
structure ListIssuesCall where
  owner : String
  repo : String
  state : String
  per_page : Nat
deriving DecidableEq

/-- Arguments of the `octokit.rest.repos.getContent` call. -/
structure GetContentCall where
  owner : String
  repo : String
  path : String
  ref : String
deriving DecidableEq

/-- Arguments of the `octokit.rest.search.code` call. -/
structure SearchCodeCall where
  q : String
  per_page : Nat
deriving DecidableEq

/-- Arguments of the `octokit.rest.repos.listCommits` call. -/
structure ListCommitsCall where
  owner : String
  repo : String
  sha : String
  per_page : Nat
deriving DecidableEq

/-! ### Caller-supplied argument objects (the `arguments` of the request
body); optional fields model properties a caller may omit. -/

/-- Arguments of `get_repository_info`. -/
structure RepoInfoArgs where
  owner : String
  repo : String

/-- Arguments of `list_issues`. -/
structure ListIssuesArgs where
  owner : String
  repo : String
  state : Option String
  per_page : Option Nat

/-- Arguments of `get_file_contents`. -/
structure FileContentsArgs where
  owner : String
  repo : String
  path : String
  ref : Option String

/-- Arguments of `search_files` (the declared `path` parameter is never read
by the implementation). -/
structure SearchFilesArgs where
  owner : String
  repo : String
  query : String
  path : Option String

/-- Arguments of `get_commits`. -/
structure GetCommitsArgs where
  owner : String
  repo : String
  sha : Option String
  per_page : Option Nat

/-- Arguments of `search_code`. -/
structure SearchCodeArgs where
  owner : String
  repo : String
  query : String

/-! ### The six tool adapters (`toolImplementations` in `src/server.js`)

Each adapter takes a stub of the one upstream endpoint it uses (a function
from the call arguments it builds to either response data or a thrown
`ApiError`) and returns its JSON result together with the list of upstream
calls it issued. The whole body of each source adapter sits inside
try/catch with `handleGitHubError` in the catch, so the model is total. -/

/-- `toolImplementations.get_repository_info`. -/
def get_repository_info (reposGet : RepoGetCall → Except ApiError RepoData)
    (args : RepoInfoArgs) : Json × List RepoGetCall :=
  let call : RepoGetCall := { owner := args.owner, repo := args.repo }
  let result :=
    match reposGet call with
    | .error e => handleGitHubError e
    | .ok d =>
      Json.obj
        [("name", Json.str d.name),
         ("full_name", Json.str d.full_name),
         ("description", Json.str d.description),
         ("language", Json.str d.language),
         ("stars", Json.num d.stargazers_count),
         ("forks", Json.num d.forks_count),
         ("open_issues", Json.num d.open_issues_count),
         ("created_at", Json.str d.created_at),
         ("updated_at", Json.str d.updated_at),
         ("clone_url", Json.str d.clone_url),
         ("default_branch", Json.str d.default_branch)]
  (result, [call])

/-- The reshaping `list_issues` applies to each upstream issue. -/
def issueJson (issue : IssueData) : Json :=
  Json.obj
    [("number", Json.num issue.number),
     ("title", Json.str issue.title),
     ("body", Json.str issue.body),
     ("state", Json.str issue.state),
     ("author", Json.str issue.user.login),
     ("created_at", Json.str issue.created_at),
     ("updated_at", Json.str issue.updated_at),
     ("labels", Json.arr (issue.labels.map (fun label => Json.str label.name))),
     ("assignees", Json.arr (issue.assignees.map (fun assignee => Json.str assignee.login)))]

/-- `toolImplementations.list_issues`; `state` defaults to `"open"` and
`per_page` to `30` via JS `||`. -/
def list_issues (listForRepo : ListIssuesCall → Except ApiError (List IssueData))
    (args : ListIssuesArgs) : Json × List ListIssuesCall :=
  let call : ListIssuesCall :=
    { owner := args.owner, repo := args.repo,
      state := jsOrStr args.state "open", per_page := jsOrNat args.per_page 30 }
  let result :=
    match listForRepo call with
    | .error e => handleGitHubError e
    | .ok issues => Json.arr (issues.map issueJson)
  (result, [call])

/-- `toolImplementations.get_file_contents`; `ref` defaults to `"main"`,
file content is base64-decoded to UTF-8 text, and a non-file target yields the
`InvalidInput` body. -/
def get_file_contents (getContent : GetContentCall → Except ApiError ContentData)
    (args : FileContentsArgs) : Json × List GetContentCall :=
  let call : GetContentCall :=
    { owner := args.owner, repo := args.repo, path := args.path,
      ref := jsOrStr args.ref "main" }
  let result :=
    match getContent call with
    | .error e => handleGitHubError e
    | .ok d =>
      if d.type = "file" then
        Json.obj
          [("name", Json.str d.name),
           ("path", Json.str d.path),
           ("size", Json.num d.size),
           ("content", Json.str (bufferBase64ToUtf8 d.content)),
           ("sha", Json.str d.sha)]
      else
        Json.obj [("error", Json.str "Path is not a file")]
  (result, [call])

/-- The reshaping `search_files` applies to each search item. -/
def searchFileItemJson (item : SearchItem) : Json :=
  Json.obj
    [("name", Json.str item.name),
     ("path", Json.str item.path),
     ("sha", Json.str item.sha),
     ("url", Json.str item.html_url),
     ("score", Json.num item.score)]

/-- `toolImplementations.search_files`: the query is the caller's query with
the repository qualifier appended, `per_page` is the literal 30. -/
def search_files (searchCode : SearchCodeCall → Except ApiError SearchData)
    (args : SearchFilesArgs) : Json × List SearchCodeCall :=
  let query := args.query ++ " repo:" ++ args.owner ++ "/" ++ args.repo
  let call : SearchCodeCall := { q := query, per_page := 30 }
  let result :=
    match searchCode call with
    | .error e => handleGitHubError e
    | .ok d =>
      Json.obj
        [("total_count", Json.num d.total_count),
         ("items", Json.arr (d.items.map searchFileItemJson))]
  (result, [call])

/-- `toolImplementations.get_commits`; `sha` defaults to `"main"` and
`per_page` to 30 via JS `||`. -/
def get_commits (listCommits : ListCommitsCall → Except ApiError (List CommitData))
    (args : GetCommitsArgs) : Json × List ListCommitsCall :=
  let call : ListCommitsCall :=
    { owner := args.owner, repo := args.repo,
      sha := jsOrStr args.sha "main", per_page := jsOrNat args.per_page 30 }
  let result :=
    match listCommits call with
    | .error e => handleGitHubError e
    | .ok commits =>
      Json.arr (commits.map (fun c =>
        Json.obj
          [("sha", Json.str c.sha),
           ("message", Json.str c.commit.message),
           ("author", Json.obj
             [("name", Json.str c.commit.author.name),
              ("email", Json.str c.commit.author.email),
              ("date", Json.str c.commit.author.date)]),
           ("committer", Json.obj
             [("name", Json.str c.commit.committer.name),
              ("email", Json.str c.commit.committer.email),
              ("date", Json.str c.commit.committer.date)]),
           ("url", Json.str c.html_url)]))
  (result, [call])

/-- The reshaping `search_code` applies to each search item;
`item.text_matches || []` defaults an absent snippet list to `[]`. -/
def searchCodeItemJson (item : SearchItem) : Json :=
  Json.obj
    [("name", Json.str item.name),
     ("path", Json.str item.path),
     ("sha", Json.str item.sha),
     ("url", Json.str item.html_url),
     ("score", Json.num item.score),
     ("text_matches", Json.arr (item.text_matches.getD []))]

/-- `toolImplementations.search_code`: same query construction and fixed
`per_page` 30 as `search_files`, plus `text_matches` in each item. -/
def search_code (searchCode : SearchCodeCall → Except ApiError SearchData)
    (args : SearchCodeArgs) : Json × List SearchCodeCall :=
  let query := args.query ++ " repo:" ++ args.owner ++ "/" ++ args.repo
  let call : SearchCodeCall := { q := query, per_page := 30 }
  let result :=
    match searchCode call with
    | .error e => handleGitHubError e
    | .ok d =>
      Json.obj
        [("total_count", Json.num d.total_count),
         ("items", Json.arr (d.items.map searchCodeItemJson))]
  (result, [call])

/-! ### The dispatch route (`app.post('/tools/:toolName')`) -/

/-- The own keys of the `toolImplementations` object literal. -/
def toolNames : List String :=
  ["get_repository_info", "list_issues", "get_file_contents",
   "search_files", "get_commits", "search_code"]

/-- The property names `toolImplementations` inherits from
`Object.prototype`: a plain object literal's prototype chain ends at
`Object.prototype`, whose properties (methods, plus the `__proto__`
accessor returning `Object.prototype` itself) are all truthy values. -/
def objectPrototypeProps : List String :=
  ["constructor", "hasOwnProperty", "isPrototypeOf", "propertyIsEnumerable",
   "toLocaleString", "toString", "valueOf", "__proto__",
   "__defineGetter__", "__defineSetter__", "__lookupGetter__", "__lookupSetter__"]

/-- Truthiness of the JS property lookup `toolImplementations[toolName]`:
the lookup walks the prototype chain, so it is truthy for the six own keys
and for every inherited `Object.prototype` property name alike. -/
def toolLookupTruthy (toolName : String) : Bool :=
  toolNames.contains toolName || objectPrototypeProps.contains toolName

/-- Outcome of awaiting `toolImplementations[toolName](args)`: either a
result value or a thrown exception carrying a message. -/
inductive AdapterOutcome where
  | returned (v : Json)
  | threw (message : String)

/-- An HTTP response: status code and JSON body. -/
structure HttpResponse where
  status : Nat
  body : Json

/-- The `POST /tools/:toolName` handler: 404 when the property lookup
`toolImplementations[toolName]` is falsy (which, through the prototype
chain, it is not for inherited `Object.prototype` names), 500 when the
octokit client was never constructed, otherwise run the looked-up
implementation (`run` abstracts its behaviour, also for inherited
functions), sending its result with the default 200 status and turning a
thrown exception into a 500 with the exception's message. -/
def dispatch (toolName : String) (octokitConfigured : Bool)
    (run : String → AdapterOutcome) : HttpResponse :=
  if !(toolLookupTruthy toolName) then
    { status := 404, body := Json.obj [("error", Json.str "Tool not found")] }
  else if !octokitConfigured then
    { status := 500, body := Json.obj [("error", Json.str "GitHub token not configured")] }
  else
    match run toolName with
    | .returned v => { status := 200, body := v }
    | .threw msg => { status := 500, body := Json.obj [("error", Json.str msg)] }

/-! ### Claims -/

/-- C1 (code bug): "toString" is not one of the six registered tools, yet
the dispatcher never answers 404 for it, because the JS property lookup
`toolImplementations["toString"]` finds the truthy inherited
`Object.prototype.toString`: with no credential the route answers 500
"GitHub token not configured", and with a credential it answers 200 or 500
from whatever the inherited function does — never
`{error: "Tool not found"}`. A name outside both the registered tools and
`Object.prototype` does get the 404 the claim describes. -/
theorem unknown_tool_prototype_lookup_bug :
    toolNames.contains "toString" = false ∧
    (∀ (octokitConfigured : Bool) (run : String → AdapterOutcome),
      dispatch "toString" octokitConfigured run ≠
        { status := 404, body := Json.obj [("error", Json.str "Tool not found")] }) ∧
    dispatch "toString" false (fun _ => AdapterOutcome.returned Json.null) =
      { status := 500,
        body := Json.obj [("error", Json.str "GitHub token not configured")] } ∧
    (∀ (v : Json),
      dispatch "toString" true (fun _ => AdapterOutcome.returned v) =
        { status := 200, body := v }) ∧
    (∀ (octokitConfigured : Bool) (run : String → AdapterOutcome),
      dispatch "no_such_tool" octokitConfigured run =
        { status := 404, body := Json.obj [("error", Json.str "Tool not found")] }) := by
  refine ⟨by decide, ?_, ?_, ?_, ?_⟩
  · intro octokitConfigured run
    cases octokitConfigured with
    | false => simp [dispatch, toolLookupTruthy, toolNames, objectPrototypeProps]
    | true =>
      cases hr : run "toString" with
      | returned v => simp [dispatch, toolLookupTruthy, toolNames, objectPrototypeProps, hr]
      | threw m => simp [dispatch, toolLookupTruthy, toolNames, objectPrototypeProps, hr]
  · simp [dispatch, toolLookupTruthy, toolNames, objectPrototypeProps]
  · intro v
    simp [dispatch, toolLookupTruthy, toolNames, objectPrototypeProps]
  · intro octokitConfigured run
    simp [dispatch, toolLookupTruthy, toolNames, objectPrototypeProps]

/-- C2: dispatching any of the six registered tools while the octokit
client was never constructed answers 500 with exactly
`{error: "GitHub token not configured"}`, for every possible implementation
behaviour (so no adapter is consulted). -/
theorem no_token_dispatch_500 (toolName : String) (run : String → AdapterOutcome)
    (h : toolName ∈ toolNames) :
    dispatch toolName false run =
      { status := 500,
        body := Json.obj [("error", Json.str "GitHub token not configured")] } := by
  simp [dispatch, toolLookupTruthy, h]

/-- Witness for C2 at the concrete tool name "get_repository_info". -/
theorem no_token_dispatch_500_witness :
    dispatch "get_repository_info" false (fun _ => AdapterOutcome.returned Json.null) =
      { status := 500,
        body := Json.obj [("error", Json.str "GitHub token not configured")] } :=
  no_token_dispatch_500 "get_repository_info" _ (by decide)

/-- C5: for a registered tool with the client configured, an implementation
that throws has its exception caught at the dispatch boundary and answered
as a 500 whose error field is the exception's message. -/
theorem adapter_exception_dispatch_500 (toolName msg : String)
    (run : String → AdapterOutcome)
    (h1 : toolName ∈ toolNames)
    (h2 : run toolName = AdapterOutcome.threw msg) :
    dispatch toolName true run =
      { status := 500, body := Json.obj [("error", Json.str msg)] } := by
  simp [dispatch, toolLookupTruthy, h1, h2]

/-- Witness for C5: the tool "get_commits" with an implementation throwing
the message "boom". -/
theorem adapter_exception_dispatch_500_witness :
    dispatch "get_commits" true (fun _ => AdapterOutcome.threw "boom") =
      { status := 500, body := Json.obj [("error", Json.str "boom")] } :=
  adapter_exception_dispatch_500 "get_commits" "boom" _ (by decide) rfl

/-- C3: every one of the six adapters turns an upstream 404 into exactly
`{error: "Resource not found"}` and an upstream 403 into exactly
`{error: "Rate limit exceeded or insufficient permissions"}`, whatever the
upstream message and the call arguments. -/
theorem upstream_404_403_normalized (msg : String)
    (a1 : RepoInfoArgs) (a2 : ListIssuesArgs) (a3 : FileContentsArgs)
    (a4 : SearchFilesArgs) (a5 : GetCommitsArgs) (a6 : SearchCodeArgs) :
    ((get_repository_info (fun _ => .error ⟨some 404, msg⟩) a1).1 =
        Json.obj [("error", Json.str "Resource not found")] ∧
     (list_issues (fun _ => .error ⟨some 404, msg⟩) a2).1 =
        Json.obj [("error", Json.str "Resource not found")] ∧
     (get_file_contents (fun _ => .error ⟨some 404, msg⟩) a3).1 =
        Json.obj [("error", Json.str "Resource not found")] ∧
     (search_files (fun _ => .error ⟨some 404, msg⟩) a4).1 =
        Json.obj [("error", Json.str "Resource not found")] ∧
     (get_commits (fun _ => .error ⟨some 404, msg⟩) a5).1 =
        Json.obj [("error", Json.str "Resource not found")] ∧
     (search_code (fun _ => .error ⟨some 404, msg⟩) a6).1 =
        Json.obj [("error", Json.str "Resource not found")]) ∧
    ((get_repository_info (fun _ => .error ⟨some 403, msg⟩) a1).1 =
        Json.obj [("error", Json.str "Rate limit exceeded or insufficient permissions")] ∧
     (list_issues (fun _ => .error ⟨some 403, msg⟩) a2).1 =
        Json.obj [("error", Json.str "Rate limit exceeded or insufficient permissions")] ∧
     (get_file_contents (fun _ => .error ⟨some 403, msg⟩) a3).1 =
        Json.obj [("error", Json.str "Rate limit exceeded or insufficient permissions")] ∧
     (search_files (fun _ => .error ⟨some 403, msg⟩) a4).1 =
        Json.obj [("error", Json.str "Rate limit exceeded or insufficient permissions")] ∧
     (get_commits (fun _ => .error ⟨some 403, msg⟩) a5).1 =
        Json.obj [("error", Json.str "Rate limit exceeded or insufficient permissions")] ∧
     (search_code (fun _ => .error ⟨some 403, msg⟩) a6).1 =
        Json.obj [("error", Json.str "Rate limit exceeded or insufficient permissions")]) :=
  ⟨⟨rfl, rfl, rfl, rfl, rfl, rfl⟩, ⟨rfl, rfl, rfl, rfl, rfl, rfl⟩⟩

/-- C4 counterexample: an upstream error with status 500 and message
"boom" is answered with the message "GitHub API error: boom", which is not
the upstream message passed through verbatim. -/
theorem upstream_other_error_verbatim_counterexample :
    (get_repository_info (fun _ => .error ⟨some 500, "boom"⟩)
        { owner := "octocat", repo := "Hello-World" }).1 =
      Json.obj [("error", Json.str "GitHub API error: boom")] ∧
    "GitHub API error: boom" ≠ "boom" :=
  ⟨rfl, by decide⟩

/-- C4 (amended): every adapter answers an upstream error whose status is
neither 404 nor 403 with an error message that is the upstream error's
message prefixed with "GitHub API error: ". -/
theorem upstream_other_error_message (e : ApiError)
    (h1 : e.status ≠ some 404) (h2 : e.status ≠ some 403)
    (a1 : RepoInfoArgs) (a2 : ListIssuesArgs) (a3 : FileContentsArgs)
    (a4 : SearchFilesArgs) (a5 : GetCommitsArgs) (a6 : SearchCodeArgs) :
    (get_repository_info (fun _ => .error e) a1).1 =
      Json.obj [("error", Json.str ("GitHub API error: " ++ e.message))] ∧
    (list_issues (fun _ => .error e) a2).1 =
      Json.obj [("error", Json.str ("GitHub API error: " ++ e.message))] ∧
    (get_file_contents (fun _ => .error e) a3).1 =
      Json.obj [("error", Json.str ("GitHub API error: " ++ e.message))] ∧
    (search_files (fun _ => .error e) a4).1 =
      Json.obj [("error", Json.str ("GitHub API error: " ++ e.message))] ∧
    (get_commits (fun _ => .error e) a5).1 =
      Json.obj [("error", Json.str ("GitHub API error: " ++ e.message))] ∧
    (search_code (fun _ => .error e) a6).1 =
      Json.obj [("error", Json.str ("GitHub API error: " ++ e.message))] := by
  refine ⟨?_, ?_, ?_, ?_, ?_, ?_⟩ <;>
    simp [get_repository_info, list_issues, get_file_contents, search_files,
      get_commits, search_code, handleGitHubError, h1, h2]

/-- Witness for C4's amended theorem at the concrete error
status 500 / message "boom". -/
theorem upstream_other_error_message_witness :
    (⟨some 500, "boom"⟩ : ApiError).status ≠ some 404 ∧
    (⟨some 500, "boom"⟩ : ApiError).status ≠ some 403 ∧
    (get_repository_info (fun _ => .error ⟨some 500, "boom"⟩)
        { owner := "o1", repo := "r1" }).1 =
      Json.obj [("error", Json.str ("GitHub API error: " ++ "boom"))] :=
  ⟨by decide, by decide,
   (upstream_other_error_message ⟨some 500, "boom"⟩ (by decide) (by decide)
      { owner := "o1", repo := "r1" }
      { owner := "o1", repo := "r1", state := none, per_page := none }
      { owner := "o1", repo := "r1", path := "p", ref := none }
      { owner := "o1", repo := "r1", query := "q", path := none }
      { owner := "o1", repo := "r1", sha := none, per_page := none }
      { owner := "o1", repo := "r1", query := "q" }).1⟩

/-- C6: when the upstream content response is not of type "file", the
`get_file_contents` adapter answers `{error: "Path is not a file"}` and its
upstream call trace is exactly the one `getContent` call. -/
theorem get_file_contents_directory (args : FileContentsArgs) (d : ContentData)
    (h : d.type ≠ "file") :
    get_file_contents (fun _ => .ok d) args =
      (Json.obj [("error", Json.str "Path is not a file")],
       [{ owner := args.owner, repo := args.repo, path := args.path,
          ref := jsOrStr args.ref "main" }]) := by
  simp [get_file_contents, h]

/-- Witness for C6: a concrete directory-type content response. -/
theorem get_file_contents_directory_witness :
    ({ type := "dir", name := "src", path := "src", size := 0,
       content := "", sha := "d1" } : ContentData).type ≠ "file" ∧
    get_file_contents
        (fun _ => .ok { type := "dir", name := "src", path := "src", size := 0,
                        content := "", sha := "d1" })
        { owner := "o2", repo := "r2", path := "src", ref := none } =
      (Json.obj [("error", Json.str "Path is not a file")],
       [{ owner := "o2", repo := "r2", path := "src", ref := "main" }]) :=
  ⟨by decide,
   get_file_contents_directory
     { owner := "o2", repo := "r2", path := "src", ref := none }
     { type := "dir", name := "src", path := "src", size := 0,
       content := "", sha := "d1" } (by decide)⟩

/-- The spec's concrete decoding example: the base64 payload "aGVsbG8="
decodes to the UTF-8 text "hello". -/
theorem hello_decoded : bufferBase64ToUtf8 "aGVsbG8=" = "hello" := by decide

/-- C7: when the upstream content response is of type "file", the
`get_file_contents` adapter answers name, path, size, the base64-to-UTF-8
decoding of the content field, and sha; and the decoder sends "aGVsbG8="
to "hello". -/
theorem get_file_contents_file (args : FileContentsArgs) (d : ContentData)
    (h : d.type = "file") :
    (get_file_contents (fun _ => .ok d) args).1 =
      Json.obj
        [("name", Json.str d.name),
         ("path", Json.str d.path),
         ("size", Json.num d.size),
         ("content", Json.str (bufferBase64ToUtf8 d.content)),
         ("sha", Json.str d.sha)] ∧
    bufferBase64ToUtf8 "aGVsbG8=" = "hello" :=
  ⟨by simp [get_file_contents, h], hello_decoded⟩

/-- Witness for C7: a concrete file-type content response carrying the
payload "aGVsbG8=" is answered with content "hello". -/
theorem get_file_contents_file_witness :
    ({ type := "file", name := "hello.txt", path := "docs/hello.txt",
       size := 5, content := "aGVsbG8=", sha := "f1" } : ContentData).type = "file" ∧
    (get_file_contents
        (fun _ => .ok { type := "file", name := "hello.txt", path := "docs/hello.txt",
                        size := 5, content := "aGVsbG8=", sha := "f1" })
        { owner := "o3", repo := "r3", path := "docs/hello.txt", ref := none }).1 =
      Json.obj
        [("name", Json.str "hello.txt"),
         ("path", Json.str "docs/hello.txt"),
         ("size", Json.num 5),
         ("content", Json.str "hello"),
         ("sha", Json.str "f1")] := by
  refine ⟨rfl, ?_⟩
  have h := (get_file_contents_file
    { owner := "o3", repo := "r3", path := "docs/hello.txt", ref := none }
    { type := "file", name := "hello.txt", path := "docs/hello.txt",
      size := 5, content := "aGVsbG8=", sha := "f1" } rfl).1
  rw [hello_decoded] at h
  exact h

/-- C8: both search adapters issue their code-search call with the caller's
query string with " repo:owner/repo" appended, and page size the literal
30, for every caller-supplied query, owner and repo. -/
theorem search_query_repo_qualifier (q owner repo : String) (p : Option String)
    (stub1 stub2 : SearchCodeCall → Except ApiError SearchData) :
    (search_files stub1 { owner := owner, repo := repo, query := q, path := p }).2 =
      [{ q := q ++ " repo:" ++ owner ++ "/" ++ repo, per_page := 30 }] ∧
    (search_code stub2 { owner := owner, repo := repo, query := q }).2 =
      [{ q := q ++ " repo:" ++ owner ++ "/" ++ repo, per_page := 30 }] :=
  ⟨rfl, rfl⟩

/-- C9: `list_issues` defaults `state` to "open" and `per_page` to 30 when
those arguments are absent, maps every upstream issue through `issueJson`
(label names in order, assignee logins in order), and on one stubbed issue
with two labels and one assignee answers a one-element array whose labels
are the two names and whose assignees are the one login. -/
theorem list_issues_defaults_reshape (owner repo : String) (issue : IssueData)
    (n1 n2 lg : String)
    (hl : issue.labels = [{ name := n1 }, { name := n2 }])
    (ha : issue.assignees = [{ login := lg }]) :
    (list_issues (fun _ => .ok [issue])
        { owner := owner, repo := repo, state := none, per_page := none }).2 =
      [{ owner := owner, repo := repo, state := "open", per_page := 30 }] ∧
    (∀ (issues : List IssueData),
      (list_issues (fun _ => .ok issues)
          { owner := owner, repo := repo, state := none, per_page := none }).1 =
        Json.arr (issues.map issueJson)) ∧
    (list_issues (fun _ => .ok [issue])
        { owner := owner, repo := repo, state := none, per_page := none }).1 =
      Json.arr [issueJson issue] ∧
    jsonField (issueJson issue) "labels" =
      some (Json.arr [Json.str n1, Json.str n2]) ∧
    jsonField (issueJson issue) "assignees" =
      some (Json.arr [Json.str lg]) := by
  refine ⟨rfl, fun issues => rfl, rfl, ?_, ?_⟩
  · simp [jsonField, issueJson, hl]
  · simp [jsonField, issueJson, ha]

/-- Witness for C9: one issue titled "t" with labels "bug" and
"enhancement" and assignee "alice". -/
theorem list_issues_defaults_reshape_witness :
    ({ number := 7, title := "t", body := "b", state := "open",
       user := { login := "bob" }, created_at := "c", updated_at := "u",
       labels := [{ name := "bug" }, { name := "enhancement" }],
       assignees := [{ login := "alice" }] } : IssueData).labels =
      [{ name := "bug" }, { name := "enhancement" }] ∧
    (list_issues
        (fun _ => .ok [{ number := 7, title := "t", body := "b", state := "open",
                         user := { login := "bob" }, created_at := "c", updated_at := "u",
                         labels := [{ name := "bug" }, { name := "enhancement" }],
                         assignees := [{ login := "alice" }] }])
        { owner := "o4", repo := "r4", state := none, per_page := none }).2 =
      [{ owner := "o4", repo := "r4", state := "open", per_page := 30 }] ∧
    jsonField (issueJson
        { number := 7, title := "t", body := "b", state := "open",
          user := { login := "bob" }, created_at := "c", updated_at := "u",
          labels := [{ name := "bug" }, { name := "enhancement" }],
          assignees := [{ login := "alice" }] }) "labels" =
      some (Json.arr [Json.str "bug", Json.str "enhancement"]) ∧
    jsonField (issueJson
        { number := 7, title := "t", body := "b", state := "open",
          user := { login := "bob" }, created_at := "c", updated_at := "u",
          labels := [{ name := "bug" }, { name := "enhancement" }],
          assignees := [{ login := "alice" }] }) "assignees" =
      some (Json.arr [Json.str "alice"]) := by
  have h := list_issues_defaults_reshape "o4" "r4"
    { number := 7, title := "t", body := "b", state := "open",
      user := { login := "bob" }, created_at := "c", updated_at := "u",
      labels := [{ name := "bug" }, { name := "enhancement" }],
      assignees := [{ login := "alice" }] }
    "bug" "enhancement" "alice" rfl rfl
  exact ⟨rfl, h.1, h.2.2.2.1, h.2.2.2.2⟩

/-- C10: every adapter-level failure — upstream 404, 403, any other
upstream error, and the not-a-file case — reaches the HTTP caller as the
JSON body of a status-200 response, because the adapters return their error
objects as ordinary results; the dispatcher's 500 branch is not taken. -/
theorem adapter_failures_status_200 (e : ApiError)
    (a1 : RepoInfoArgs) (a2 : ListIssuesArgs) (a3 : FileContentsArgs)
    (a4 : SearchFilesArgs) (a5 : GetCommitsArgs) (a6 : SearchCodeArgs)
    (d : ContentData) (hd : d.type ≠ "file") :
    dispatch "get_repository_info" true
        (fun _ => .returned (get_repository_info (fun _ => .error e) a1).1) =
      { status := 200, body := handleGitHubError e } ∧
    dispatch "list_issues" true
        (fun _ => .returned (list_issues (fun _ => .error e) a2).1) =
      { status := 200, body := handleGitHubError e } ∧
    dispatch "get_file_contents" true
        (fun _ => .returned (get_file_contents (fun _ => .error e) a3).1) =
      { status := 200, body := handleGitHubError e } ∧
    dispatch "search_files" true
        (fun _ => .returned (search_files (fun _ => .error e) a4).1) =
      { status := 200, body := handleGitHubError e } ∧
    dispatch "get_commits" true
        (fun _ => .returned (get_commits (fun _ => .error e) a5).1) =
      { status := 200, body := handleGitHubError e } ∧
    dispatch "search_code" true
        (fun _ => .returned (search_code (fun _ => .error e) a6).1) =
      { status := 200, body := handleGitHubError e } ∧
    dispatch "get_file_contents" true
        (fun _ => .returned (get_file_contents (fun _ => .ok d) a3).1) =
      { status := 200, body := Json.obj [("error", Json.str "Path is not a file")] } := by
  refine ⟨?_, ?_, ?_, ?_, ?_, ?_, ?_⟩ <;>
    simp [dispatch, toolLookupTruthy, toolNames, objectPrototypeProps,
      get_repository_info, list_issues, get_file_contents,
      search_files, get_commits, search_code, hd]

/-- Witness for C10 at a concrete 502 upstream error and a concrete
directory-type content response. -/
theorem adapter_failures_status_200_witness :
    ({ type := "dir", name := "lib", path := "lib", size := 0,
       content := "", sha := "d2" } : ContentData).type ≠ "file" ∧
    dispatch "get_file_contents" true
        (fun _ => .returned (get_file_contents
          (fun _ => .ok { type := "dir", name := "lib", path := "lib", size := 0,
                          content := "", sha := "d2" })
          { owner := "o5", repo := "r5", path := "lib", ref := none }).1) =
      { status := 200, body := Json.obj [("error", Json.str "Path is not a file")] } ∧
    dispatch "get_repository_info" true
        (fun _ => .returned (get_repository_info
          (fun _ => .error ⟨some 502, "bad gateway"⟩)
          { owner := "o5", repo := "r5" }).1) =
      { status := 200, body := handleGitHubError ⟨some 502, "bad gateway"⟩ } := by
  have h := adapter_failures_status_200 ⟨some 502, "bad gateway"⟩
    { owner := "o5", repo := "r5" }
    { owner := "o5", repo := "r5", state := none, per_page := none }
    { owner := "o5", repo := "r5", path := "lib", ref := none }
    { owner := "o5", repo := "r5", query := "q", path := none }
    { owner := "o5", repo := "r5", sha := none, per_page := none }
    { owner := "o5", repo := "r5", query := "q" }
    { type := "dir", name := "lib", path := "lib", size := 0,
      content := "", sha := "d2" } (by decide)
  exact ⟨by decide, h.2.2.2.2.2.2, h.1⟩

end Mcp
